import Mathlib

/-!
Shallow embedding of the Muli Home Assistant integration's token-aware
polling and mutation coordinator (custom_components/mulibikes/api.py and
coordinator.py).

HTTP exchanges are modelled by an environment `Env : Request → HttpResult`
describing what the upstream server answers to each request.  Every
transport operation returns its result together with the list of events
(HTTP requests issued, forced coordinator refreshes requested), so that
call counts and the tokens actually sent on the wire are part of the
semantics.
-/

/-! ## Constants (const.py) -/

def API_LOGIN_ENDPOINT : String := "/api/auth/rest/v1/login"

def API_REFRESH_ENDPOINT : String := "/api/auth/rest/v1/refresh"

def API_HOME_ENDPOINT : String := "/api/socle-350/rest/v2/home"

def API_BIKE_ENDPOINT : String := "/api/socle-350/rest/v1/bike"

def API_MONITORED_ENDPOINT : String := "/api/socle-350/rest/v1/bike/monitored"

def API_SETTINGS_ENDPOINT : String := "/api/socle-350/rest/v1/settings"

def APPLICATION_NAME : String := "MULI"

/-! ## JSON values -/

/-- JSON values, as far as the request and response bodies of api.py need:
null, booleans, strings, numbers and objects. -/
inductive JValue where
  | null : JValue
  | bool (b : Bool) : JValue
  | str (s : String) : JValue
  | num (n : Int) : JValue
  | obj (fields : List (String × JValue)) : JValue

/-- Names of the fields of a JSON object (empty for non-objects). -/
def JValue.fieldNames : JValue → List String
  | .obj fields => fields.map Prod.fst
  | _ => []

/-- Look a key up in a JSON object (Python `data[key]`, as an `Option`). -/
def JValue.lookup : JValue → String → Option JValue
  | .obj fields, k => List.lookup k fields
  | _, _ => none

/-- Look a key up and require a string value (tokens are strings). -/
def JValue.getStr (v : JValue) (k : String) : Option String :=
  match v.lookup k with
  | some (.str s) => some s
  | _ => none

/-! ## HTTP layer -/

inductive Method where
  | get : Method
  | post : Method
  | put : Method
deriving DecidableEq

/-- One HTTP request as built by api.py: method, path, the bearer token put
in the Authorization header (if any), and the JSON body (if any). -/
structure Request where
  method : Method
  path : String
  auth : Option String
  body : Option JValue

/-- What the server answers: a status code with a JSON body, or a
transport-level error (aiohttp `ClientError`). -/
inductive HttpResult where
  | resp (status : Nat) (body : JValue) : HttpResult
  | netError (detail : String) : HttpResult

/-- The upstream server, as a deterministic map from requests to answers. -/
def Env : Type := Request → HttpResult

/-- Observable events of one coordinator cycle: HTTP requests issued, and
forced out-of-cadence coordinator refresh requests
(`async_request_refresh`), tagged by which coordinator they target. -/
inductive CoordKind where
  | live : CoordKind
  | details : CoordKind
deriving DecidableEq, BEq

inductive Event where
  | http (req : Request) : Event
  | requestRefresh (k : CoordKind) : Event

/-! ## Exceptions (api.py / coordinator.py) -/

/-- The exceptions api.py can raise: `MuliAuthenticationError`,
`MuliConnectionError`, and an uncaught Python `KeyError` on a missing
response field. -/
inductive ApiException where
  | muliAuthenticationError (msg : String) : ApiException
  | muliConnectionError (msg : String) : ApiException
  | keyError (key : String) : ApiException

/-- What the coordinator methods can raise: `ConfigEntryAuthFailed`,
`UpdateFailed`, or an exception that no handler catches. -/
inductive CoordException where
  | configEntryAuthFailed (msg : String) : CoordException
  | updateFailed (msg : String) : CoordException
  | uncaught (e : ApiException) : CoordException

/-! ## API transport (api.py, class MuliClient)

Each function mirrors one method.  aiohttp's `raise_for_status` raises for
any status >= 400; the `except ClientResponseError` branches of api.py then
classify it.  A status the method's own `if response.status ...` guard
matches never reaches `raise_for_status`. -/

def loginPayload (email password : String) : JValue :=
  .obj [("email", .str email), ("password", .str password),
        ("application", .str APPLICATION_NAME), ("successUrl", .str "")]

def loginReq (email password : String) : Request :=
  ⟨.post, API_LOGIN_ENDPOINT, none, some (loginPayload email password)⟩

structure Credential where
  access_token : String
  refresh_token : String
deriving DecidableEq

/-- `MuliClient.login`: POST the credentials, classify 401/403 as
authentication failure, any other non-2xx/3xx status or transport error as
connection failure, and on success return the pair
`{access_token := jwtToken, refresh_token := jwtRefreshToken}`. -/
def login (email password : String) (env : Env) :
    Except ApiException Credential × List Event :=
  let req := loginReq email password
  match env req with
  | .netError d => (.error (.muliConnectionError ("Connection error: " ++ d)), [.http req])
  | .resp s body =>
    if s = 401 ∨ s = 403 then
      (.error (.muliAuthenticationError "Invalid credentials"), [.http req])
    else if 400 ≤ s then
      (.error (.muliConnectionError ("HTTP error: " ++ toString s)), [.http req])
    else
      match body.getStr "jwtToken", body.getStr "jwtRefreshToken" with
      | some a, some r => (.ok ⟨a, r⟩, [.http req])
      | some _, none => (.error (.keyError "jwtRefreshToken"), [.http req])
      | none, _ => (.error (.keyError "jwtToken"), [.http req])

def refreshReq (refresh_token : String) : Request :=
  ⟨.post, API_REFRESH_ENDPOINT, none, some (.obj [("refreshToken", .str refresh_token)])⟩

/-- `MuliClient.refresh_access_token`: POST the refresh token, classify
401/403 as authentication failure, other errors as connection failure, and
on success return the new access token from `jwtToken`. -/
def refresh_access_token (refresh_token : String) (env : Env) :
    Except ApiException String × List Event :=
  let req := refreshReq refresh_token
  match env req with
  | .netError d => (.error (.muliConnectionError ("Connection error: " ++ d)), [.http req])
  | .resp s body =>
    if s = 401 ∨ s = 403 then
      (.error (.muliAuthenticationError "Refresh token expired or invalid"), [.http req])
    else if 400 ≤ s then
      (.error (.muliConnectionError ("HTTP error: " ++ toString s)), [.http req])
    else
      match body.getStr "jwtToken" with
      | some t => (.ok t, [.http req])
      | none => (.error (.keyError "jwtToken"), [.http req])

def liveReq (token : String) : Request := ⟨.get, API_HOME_ENDPOINT, some token, none⟩

/-- `MuliClient.get_device_data`: a falsy access token (Python `None` or the
empty string) raises an authentication error before any HTTP exchange;
otherwise GET the home endpoint with the bearer token and classify a 401 as
authentication failure and every other error — a 403 included — as
connection failure. -/
def get_device_data (access_token : Option String) (env : Env) :
    Except ApiException JValue × List Event :=
  match access_token with
  | none => (.error (.muliAuthenticationError "No access token available"), [])
  | some t =>
    if t = "" then (.error (.muliAuthenticationError "No access token available"), [])
    else
      let req := liveReq t
      match env req with
      | .netError d => (.error (.muliConnectionError ("Connection error: " ++ d)), [.http req])
      | .resp s body =>
        if s = 401 then
          (.error (.muliAuthenticationError "Access token expired or invalid"), [.http req])
        else if 400 ≤ s then
          (.error (.muliConnectionError ("HTTP error: " ++ toString s)), [.http req])
        else
          (.ok body, [.http req])

def bikeDetailsReq (token : String) : Request := ⟨.get, API_BIKE_ENDPOINT, some token, none⟩

/-- `MuliClient.get_bike_details`: same shape as `get_device_data` against
the bike endpoint. -/
def get_bike_details (access_token : Option String) (env : Env) :
    Except ApiException JValue × List Event :=
  match access_token with
  | none => (.error (.muliAuthenticationError "No access token available"), [])
  | some t =>
    if t = "" then (.error (.muliAuthenticationError "No access token available"), [])
    else
      let req := bikeDetailsReq t
      match env req with
      | .netError d => (.error (.muliConnectionError ("Connection error: " ++ d)), [.http req])
      | .resp s body =>
        if s = 401 then
          (.error (.muliAuthenticationError "Access token expired or invalid"), [.http req])
        else if 400 ≤ s then
          (.error (.muliConnectionError ("HTTP error: " ++ toString s)), [.http req])
        else
          (.ok body, [.http req])

def monitoredReq (token : String) (monitored : Bool) : Request :=
  ⟨.post, API_MONITORED_ENDPOINT, some token, some (.bool monitored)⟩

/-- `MuliClient.set_monitored`: POST the raw boolean to the monitored
endpoint with the bearer token; same error classification as the fetches. -/
def set_monitored (access_token : Option String) (monitored : Bool) (env : Env) :
    Except ApiException Unit × List Event :=
  match access_token with
  | none => (.error (.muliAuthenticationError "No access token available"), [])
  | some t =>
    if t = "" then (.error (.muliAuthenticationError "No access token available"), [])
    else
      let req := monitoredReq t monitored
      match env req with
      | .netError d => (.error (.muliConnectionError ("Connection error: " ++ d)), [.http req])
      | .resp s _ =>
        if s = 401 then
          (.error (.muliAuthenticationError "Access token expired or invalid"), [.http req])
        else if 400 ≤ s then
          (.error (.muliConnectionError ("HTTP error: " ++ toString s)), [.http req])
        else
          (.ok (), [.http req])

/-- The request body of `MuliClient.set_movement_alarm`: the nested
settings object built at api.py lines 229-237. -/
def settingsPayload (enabled : Bool) : JValue :=
  .obj [("display", .null),
        ("security", .obj [("movementLockControl", .null),
                           ("movementAlarm", .bool enabled),
                           ("autoLock", .null)]),
        ("notifications", .null)]

def settingsReq (token : String) (enabled : Bool) : Request :=
  ⟨.put, API_SETTINGS_ENDPOINT, some token, some (settingsPayload enabled)⟩

/-- `MuliClient.set_movement_alarm`: PUT the settings payload to the
settings endpoint with the bearer token; same error classification as the
fetches. -/
def set_movement_alarm (access_token : Option String) (enabled : Bool) (env : Env) :
    Except ApiException Unit × List Event :=
  match access_token with
  | none => (.error (.muliAuthenticationError "No access token available"), [])
  | some t =>
    if t = "" then (.error (.muliAuthenticationError "No access token available"), [])
    else
      let req := settingsReq t enabled
      match env req with
      | .netError d => (.error (.muliConnectionError ("Connection error: " ++ d)), [.http req])
      | .resp s _ =>
        if s = 401 then
          (.error (.muliAuthenticationError "Access token expired or invalid"), [.http req])
        else if 400 ≤ s then
          (.error (.muliConnectionError ("HTTP error: " ++ toString s)), [.http req])
        else
          (.ok (), [.http req])

/-! ## Coordinator (coordinator.py)

The coordinator state gathers what the Python objects mutate: the client's
`access_token`, the config entry's persisted access and refresh tokens, and
the published snapshot (`DataUpdateCoordinator.data`). -/

structure CoordState where
  clientToken : Option String
  entryAccessToken : String
  entryRefreshToken : String
  snapshot : Option JValue

/-- The try-operation / on-auth-failure refresh-and-retry block that
coordinator.py repeats verbatim in `MuliDataUpdateCoordinator._async_update_data`
(lines 49-87), `async_set_monitored` (102-140), `async_set_movement_alarm`
(155-193) and `MuliBikeDetailsCoordinator._async_update_data` (220-258);
`op` is the wrapped `MuliClient` call, reading the client's access token.
On auth failure of `op`: refresh with the entry's refresh token; on refresh
success store the new token in the client and the config entry, then retry
`op` once, reading the freshly assigned client token (`some newTok`).  An auth error from the refresh or from the retried `op` is
caught by the same inner handler and raises `ConfigEntryAuthFailed`; a
connection error there raises `UpdateFailed` with the refresh-failure
message.  A connection error of the first `op` raises `UpdateFailed`
directly.  An uncaught exception (Python `KeyError`) propagates. -/
def authRetryFlow (op : Option String → Env → Except ApiException α × List Event)
    (st : CoordState) (env : Env) :
    Except CoordException α × CoordState × List Event :=
  match op st.clientToken env with
  | (.ok a, log1) => (.ok a, st, log1)
  | (.error (.muliConnectionError m), log1) =>
    (.error (.updateFailed ("Error communicating with API: " ++ m)), st, log1)
  | (.error (.keyError k), log1) => (.error (.uncaught (.keyError k)), st, log1)
  | (.error (.muliAuthenticationError _), log1) =>
    match refresh_access_token st.entryRefreshToken env with
    | (.error (.muliAuthenticationError _), log2) =>
      (.error (.configEntryAuthFailed "Refresh token expired, please re-authenticate"),
       st, log1 ++ log2)
    | (.error (.muliConnectionError m), log2) =>
      (.error (.updateFailed ("Failed to refresh token: " ++ m)), st, log1 ++ log2)
    | (.error (.keyError k), log2) => (.error (.uncaught (.keyError k)), st, log1 ++ log2)
    | (.ok newTok, log2) =>
      match op (some newTok) env with
      | (.ok a, log3) =>
        (.ok a, { st with clientToken := some newTok, entryAccessToken := newTok },
         log1 ++ log2 ++ log3)
      | (.error (.muliAuthenticationError _), log3) =>
        (.error (.configEntryAuthFailed "Refresh token expired, please re-authenticate"),
         { st with clientToken := some newTok, entryAccessToken := newTok },
         log1 ++ log2 ++ log3)
      | (.error (.muliConnectionError m), log3) =>
        (.error (.updateFailed ("Failed to refresh token: " ++ m)),
         { st with clientToken := some newTok, entryAccessToken := newTok },
         log1 ++ log2 ++ log3)
      | (.error (.keyError k), log3) =>
        (.error (.uncaught (.keyError k)),
         { st with clientToken := some newTok, entryAccessToken := newTok },
         log1 ++ log2 ++ log3)

/-- `MuliDataUpdateCoordinator._async_update_data`: fetch the live device
data through the refresh-and-retry block. -/
def MuliDataUpdateCoordinator.async_update_data (st : CoordState) (env : Env) :
    Except CoordException JValue × CoordState × List Event :=
  authRetryFlow get_device_data st env

/-- `MuliBikeDetailsCoordinator._async_update_data`: fetch the bike details
through the refresh-and-retry block. -/
def MuliBikeDetailsCoordinator.async_update_data (st : CoordState) (env : Env) :
    Except CoordException JValue × CoordState × List Event :=
  authRetryFlow get_bike_details st env

/-- `MuliDataUpdateCoordinator.async_set_monitored`: run `set_monitored`
through the refresh-and-retry block and, when it returns without raising,
call `self.async_request_refresh()` — `self` is the live-data coordinator. -/
def MuliDataUpdateCoordinator.async_set_monitored (st : CoordState) (env : Env)
    (monitored : Bool) : Except CoordException Unit × CoordState × List Event :=
  match authRetryFlow (fun tok e => set_monitored tok monitored e) st env with
  | (.ok _, st2, log) => (.ok (), st2, log ++ [.requestRefresh .live])
  | (.error e, st2, log) => (.error e, st2, log)

/-- `MuliDataUpdateCoordinator.async_set_movement_alarm`: run
`set_movement_alarm` through the refresh-and-retry block and, when it
returns without raising, call `self.async_request_refresh()`. -/
def MuliDataUpdateCoordinator.async_set_movement_alarm (st : CoordState) (env : Env)
    (enabled : Bool) : Except CoordException Unit × CoordState × List Event :=
  match authRetryFlow (fun tok e => set_movement_alarm tok enabled e) st env with
  | (.ok _, st2, log) => (.ok (), st2, log ++ [.requestRefresh .live])
  | (.error e, st2, log) => (.error e, st2, log)

/-- Models the documented contract of Home Assistant's
`DataUpdateCoordinator` (a library external to this repository): when
`_async_update_data` returns, its value becomes the published snapshot;
when it raises, the previous snapshot is left in place. -/
def runLiveUpdateCycle (st : CoordState) (env : Env) :
    Except CoordException JValue × CoordState × List Event :=
  match MuliDataUpdateCoordinator.async_update_data st env with
  | (.ok d, st2, log) => (.ok d, { st2 with snapshot := some d }, log)
  | (.error e, st2, log) => (.error e, st2, log)

/-! ## Event counting -/

def Event.pathIs (p : String) : Event → Bool
  | .http r => r.path == p
  | _ => false

/-- Number of HTTP requests in the log against a given path. -/
def pathCallCount (p : String) (log : List Event) : Nat :=
  (log.filter (Event.pathIs p)).length

/-- Number of token-refresh HTTP calls in the log. -/
def refreshCallCount (log : List Event) : Nat :=
  pathCallCount API_REFRESH_ENDPOINT log

def Event.isForcedRefresh (k : CoordKind) : Event → Bool
  | .requestRefresh k2 => k2 == k
  | _ => false

/-- Number of forced `async_request_refresh` calls against a coordinator. -/
def forcedRefreshCount (k : CoordKind) (log : List Event) : Nat :=
  (log.filter (Event.isForcedRefresh k)).length

/-! ## Helper lemmas -/

theorem pathCallCount_append (p : String) (a b : List Event) :
    pathCallCount p (a ++ b) = pathCallCount p a + pathCallCount p b := by
  simp [pathCallCount, List.filter_append]

theorem forcedRefreshCount_append (k : CoordKind) (a b : List Event) :
    forcedRefreshCount k (a ++ b) = forcedRefreshCount k a + forcedRefreshCount k b := by
  simp [forcedRefreshCount, List.filter_append]

/-- The refresh call performs exactly one HTTP exchange, whatever the
server answers. -/
theorem refresh_access_token_log (rt : String) (env : Env) :
    (refresh_access_token rt env).2 = [.http (refreshReq rt)] := by
  unfold refresh_access_token
  dsimp only
  repeat' split
  all_goals rfl

theorem refreshCallCount_refresh (rt : String) (env : Env) :
    refreshCallCount (refresh_access_token rt env).2 = 1 := by
  rw [refresh_access_token_log]
  rfl

theorem forcedRefreshCount_refresh (k : CoordKind) (rt : String) (env : Env) :
    forcedRefreshCount k (refresh_access_token rt env).2 = 0 := by
  rw [refresh_access_token_log]
  rfl

/-- The live fetch issues no HTTP call at all (falsy token) or exactly the
one GET against the home endpoint. -/
theorem get_device_data_log (tok : Option String) (env : Env) :
    (get_device_data tok env).2 = [] ∨
      ∃ t, tok = some t ∧ (get_device_data tok env).2 = [.http (liveReq t)] := by
  unfold get_device_data
  rcases tok with _ | t
  · exact Or.inl rfl
  · simp only
    split
    · exact Or.inl rfl
    · refine Or.inr ⟨t, rfl, ?_⟩
      dsimp only
      repeat' split
      all_goals rfl

theorem get_bike_details_log (tok : Option String) (env : Env) :
    (get_bike_details tok env).2 = [] ∨
      ∃ t, tok = some t ∧ (get_bike_details tok env).2 = [.http (bikeDetailsReq t)] := by
  unfold get_bike_details
  rcases tok with _ | t
  · exact Or.inl rfl
  · simp only
    split
    · exact Or.inl rfl
    · refine Or.inr ⟨t, rfl, ?_⟩
      dsimp only
      repeat' split
      all_goals rfl

theorem set_monitored_log (tok : Option String) (b : Bool) (env : Env) :
    (set_monitored tok b env).2 = [] ∨
      ∃ t, tok = some t ∧ (set_monitored tok b env).2 = [.http (monitoredReq t b)] := by
  unfold set_monitored
  rcases tok with _ | t
  · exact Or.inl rfl
  · simp only
    split
    · exact Or.inl rfl
    · refine Or.inr ⟨t, rfl, ?_⟩
      dsimp only
      repeat' split
      all_goals rfl

theorem set_movement_alarm_log (tok : Option String) (b : Bool) (env : Env) :
    (set_movement_alarm tok b env).2 = [] ∨
      ∃ t, tok = some t ∧ (set_movement_alarm tok b env).2 = [.http (settingsReq t b)] := by
  unfold set_movement_alarm
  rcases tok with _ | t
  · exact Or.inl rfl
  · simp only
    split
    · exact Or.inl rfl
    · refine Or.inr ⟨t, rfl, ?_⟩
      dsimp only
      repeat' split
      all_goals rfl

theorem refreshCallCount_get_device_data (tok : Option String) (env : Env) :
    refreshCallCount (get_device_data tok env).2 = 0 := by
  rcases get_device_data_log tok env with h | ⟨t, _, h⟩ <;> rw [h] <;> rfl

theorem refreshCallCount_get_bike_details (tok : Option String) (env : Env) :
    refreshCallCount (get_bike_details tok env).2 = 0 := by
  rcases get_bike_details_log tok env with h | ⟨t, _, h⟩ <;> rw [h] <;> rfl

theorem refreshCallCount_set_monitored (tok : Option String) (b : Bool) (env : Env) :
    refreshCallCount (set_monitored tok b env).2 = 0 := by
  rcases set_monitored_log tok b env with h | ⟨t, _, h⟩ <;> rw [h] <;> rfl

theorem refreshCallCount_set_movement_alarm (tok : Option String) (b : Bool) (env : Env) :
    refreshCallCount (set_movement_alarm tok b env).2 = 0 := by
  rcases set_movement_alarm_log tok b env with h | ⟨t, _, h⟩ <;> rw [h] <;> rfl

theorem forcedRefreshCount_get_device_data (k : CoordKind) (tok : Option String) (env : Env) :
    forcedRefreshCount k (get_device_data tok env).2 = 0 := by
  rcases get_device_data_log tok env with h | ⟨t, _, h⟩ <;> rw [h] <;> rfl

theorem forcedRefreshCount_set_monitored (k : CoordKind) (tok : Option String) (b : Bool)
    (env : Env) : forcedRefreshCount k (set_monitored tok b env).2 = 0 := by
  rcases set_monitored_log tok b env with h | ⟨t, _, h⟩ <;> rw [h] <;> rfl

theorem forcedRefreshCount_set_movement_alarm (k : CoordKind) (tok : Option String) (b : Bool)
    (env : Env) : forcedRefreshCount k (set_movement_alarm tok b env).2 = 0 := by
  rcases set_movement_alarm_log tok b env with h | ⟨t, _, h⟩ <;> rw [h] <;> rfl

/-- The refresh-and-retry block never touches the published snapshot. -/
theorem authRetryFlow_snapshot {α : Type}
    (op : Option String → Env → Except ApiException α × List Event)
    (st : CoordState) (env : Env) :
    (authRetryFlow op st env).2.1.snapshot = st.snapshot := by
  unfold authRetryFlow
  repeat' split
  all_goals rfl

/-- The refresh-and-retry block never touches the stored refresh token. -/
theorem authRetryFlow_refresh_token {α : Type}
    (op : Option String → Env → Except ApiException α × List Event)
    (st : CoordState) (env : Env) :
    (authRetryFlow op st env).2.1.entryRefreshToken = st.entryRefreshToken := by
  unfold authRetryFlow
  repeat' split
  all_goals rfl

/-- Case analysis of the refresh branch: when the wrapped call auth-fails,
the block makes exactly the one refresh HTTP call and then either stops
(refresh failed, state untouched) or retries once with the new token stored
in the client and the config entry. -/
theorem authRetryFlow_auth_branch {α : Type}
    (op : Option String → Env → Except ApiException α × List Event)
    (st : CoordState) (env : Env) (m : String) (l1 : List Event)
    (h1 : op st.clientToken env = (.error (.muliAuthenticationError m), l1)) :
    ((∃ e2, (refresh_access_token st.entryRefreshToken env).1 = .error e2) ∧
      (authRetryFlow op st env).2.2 = l1 ++ [.http (refreshReq st.entryRefreshToken)] ∧
      (authRetryFlow op st env).2.1 = st)
    ∨
    (∃ newTok, (refresh_access_token st.entryRefreshToken env).1 = .ok newTok ∧
      (authRetryFlow op st env).2.2 =
        l1 ++ [.http (refreshReq st.entryRefreshToken)] ++ (op (some newTok) env).2 ∧
      (authRetryFlow op st env).2.1 =
        { st with clientToken := some newTok, entryAccessToken := newTok }) := by
  have hlog := refresh_access_token_log st.entryRefreshToken env
  rcases h2 : refresh_access_token st.entryRefreshToken env with ⟨r2, l2⟩
  rw [h2] at hlog
  dsimp only at hlog
  subst hlog
  rcases r2 with e2 | newTok
  · refine Or.inl ⟨⟨e2, rfl⟩, ?_⟩
    rcases e2 with m2 | m2 | k2 <;> simp [authRetryFlow, h1, h2]
  · rcases h3 : op (some newTok) env with ⟨r3, l3⟩
    refine Or.inr ⟨newTok, rfl, ?_⟩
    rw [h3]
    rcases r3 with e3 | a3
    · rcases e3 with m3 | m3 | k3 <;> simp [authRetryFlow, h1, h2, h3]
    · simp [authRetryFlow, h1, h2, h3]

/-- The refresh-and-retry block itself never requests a forced coordinator
refresh, provided the wrapped call does not. -/
theorem authRetryFlow_forced {α : Type}
    (op : Option String → Env → Except ApiException α × List Event)
    (st : CoordState) (env : Env) (k : CoordKind)
    (hop : ∀ tok, forcedRefreshCount k (op tok env).2 = 0) :
    forcedRefreshCount k (authRetryFlow op st env).2.2 = 0 := by
  rcases h1 : op st.clientToken env with ⟨r1, l1⟩
  have hl1 : forcedRefreshCount k l1 = 0 := by
    have h := hop st.clientToken
    rw [h1] at h
    exact h
  rcases r1 with e1 | a1
  · rcases e1 with m1 | m1 | k1
    · rcases authRetryFlow_auth_branch op st env m1 l1 h1 with ⟨_, hlog, _⟩ | ⟨newTok, _, hlog, _⟩
      · rw [hlog, forcedRefreshCount_append, hl1]
        rfl
      · have hl3 : forcedRefreshCount k (op (some newTok) env).2 = 0 := hop (some newTok)
        rw [hlog, forcedRefreshCount_append, forcedRefreshCount_append, hl1, hl3]
        rfl
    · simp only [authRetryFlow, h1]
      exact hl1
    · simp only [authRetryFlow, h1]
      exact hl1
  · simp only [authRetryFlow, h1]
    exact hl1

theorem get_device_data_401 (t : String) (ht : t ≠ "") (env : Env) (body : JValue)
    (h : env (liveReq t) = .resp 401 body) :
    get_device_data (some t) env =
      (.error (.muliAuthenticationError "Access token expired or invalid"),
       [.http (liveReq t)]) := by
  simp [get_device_data, ht, h]

theorem get_bike_details_401 (t : String) (ht : t ≠ "") (env : Env) (body : JValue)
    (h : env (bikeDetailsReq t) = .resp 401 body) :
    get_bike_details (some t) env =
      (.error (.muliAuthenticationError "Access token expired or invalid"),
       [.http (bikeDetailsReq t)]) := by
  simp [get_bike_details, ht, h]

theorem set_monitored_401 (t : String) (ht : t ≠ "") (b : Bool) (env : Env) (body : JValue)
    (h : env (monitoredReq t b) = .resp 401 body) :
    set_monitored (some t) b env =
      (.error (.muliAuthenticationError "Access token expired or invalid"),
       [.http (monitoredReq t b)]) := by
  simp [set_monitored, ht, h]

theorem set_movement_alarm_401 (t : String) (ht : t ≠ "") (b : Bool) (env : Env) (body : JValue)
    (h : env (settingsReq t b) = .resp 401 body) :
    set_movement_alarm (some t) b env =
      (.error (.muliAuthenticationError "Access token expired or invalid"),
       [.http (settingsReq t b)]) := by
  simp [set_movement_alarm, ht, h]

theorem homeCallCount_get_device_data (tok : Option String) (env : Env) :
    pathCallCount API_HOME_ENDPOINT (get_device_data tok env).2 ≤ 1 := by
  rcases get_device_data_log tok env with h | ⟨t, _, h⟩ <;> rw [h]
  · exact Nat.zero_le 1
  · exact Nat.le_refl 1

theorem bikeCallCount_get_bike_details (tok : Option String) (env : Env) :
    pathCallCount API_BIKE_ENDPOINT (get_bike_details tok env).2 ≤ 1 := by
  rcases get_bike_details_log tok env with h | ⟨t, _, h⟩ <;> rw [h]
  · exact Nat.zero_le 1
  · exact Nat.le_refl 1

theorem monitoredCallCount_set_monitored (tok : Option String) (b : Bool) (env : Env) :
    pathCallCount API_MONITORED_ENDPOINT (set_monitored tok b env).2 ≤ 1 := by
  rcases set_monitored_log tok b env with h | ⟨t, _, h⟩ <;> rw [h]
  · exact Nat.zero_le 1
  · exact Nat.le_refl 1

theorem settingsCallCount_set_movement_alarm (tok : Option String) (b : Bool) (env : Env) :
    pathCallCount API_SETTINGS_ENDPOINT (set_movement_alarm tok b env).2 ≤ 1 := by
  rcases set_movement_alarm_log tok b env with h | ⟨t, _, h⟩ <;> rw [h]
  · exact Nat.zero_le 1
  · exact Nat.le_refl 1

/-- The HTTP calls of `async_set_monitored` are those of its
refresh-and-retry block; the extra event is only the forced refresh. -/
theorem async_set_monitored_pathCallCount (p : String) (st : CoordState) (env : Env) (b : Bool) :
    pathCallCount p (MuliDataUpdateCoordinator.async_set_monitored st env b).2.2 =
      pathCallCount p (authRetryFlow (fun tok e => set_monitored tok b e) st env).2.2 := by
  rcases h : authRetryFlow (fun tok e => set_monitored tok b e) st env with ⟨r, st2, log⟩
  rcases r with e | a
  · simp only [MuliDataUpdateCoordinator.async_set_monitored, h]
  · simp only [MuliDataUpdateCoordinator.async_set_monitored, h, pathCallCount_append]
    rfl

theorem async_set_movement_alarm_pathCallCount (p : String) (st : CoordState) (env : Env)
    (b : Bool) :
    pathCallCount p (MuliDataUpdateCoordinator.async_set_movement_alarm st env b).2.2 =
      pathCallCount p (authRetryFlow (fun tok e => set_movement_alarm tok b e) st env).2.2 := by
  rcases h : authRetryFlow (fun tok e => set_movement_alarm tok b e) st env with ⟨r, st2, log⟩
  rcases r with e | a
  · simp only [MuliDataUpdateCoordinator.async_set_movement_alarm, h]
  · simp only [MuliDataUpdateCoordinator.async_set_movement_alarm, h, pathCallCount_append]
    rfl

theorem refreshCallCount_append (a b : List Event) :
    refreshCallCount (a ++ b) = refreshCallCount a + refreshCallCount b :=
  pathCallCount_append _ a b

theorem pathCallCount_singleton_ne (p : String) (r : Request) (hne : r.path ≠ p) :
    pathCallCount p [Event.http r] = 0 := by
  simp [pathCallCount, Event.pathIs, hne]

theorem refreshCallCount_refreshReq (rt : String) :
    refreshCallCount [Event.http (refreshReq rt)] = 1 := rfl

/-- After an auth failure of the wrapped call, the refresh-and-retry block
makes exactly one refresh HTTP call and at most one retry of the wrapped
operation (at most two HTTP calls against its endpoint in total). -/
theorem authRetryFlow_counts {α : Type}
    (op : Option String → Env → Except ApiException α × List Event)
    (p : String) (st : CoordState) (env : Env) (m : String) (l1 : List Event)
    (h1 : op st.clientToken env = (.error (.muliAuthenticationError m), l1))
    (hR : ∀ tok, refreshCallCount (op tok env).2 = 0)
    (hP : ∀ tok, pathCallCount p (op tok env).2 ≤ 1)
    (hpne : p ≠ API_REFRESH_ENDPOINT) :
    refreshCallCount (authRetryFlow op st env).2.2 = 1 ∧
    pathCallCount p (authRetryFlow op st env).2.2 ≤ 2 := by
  have hl1R : refreshCallCount l1 = 0 := by
    have h := hR st.clientToken
    rw [h1] at h
    exact h
  have hl1P : pathCallCount p l1 ≤ 1 := by
    have h := hP st.clientToken
    rw [h1] at h
    exact h
  have hrne : (refreshReq st.entryRefreshToken).path ≠ p := Ne.symm hpne
  rcases authRetryFlow_auth_branch op st env m l1 h1 with ⟨_, hlog, _⟩ | ⟨newTok, _, hlog, _⟩
  · refine ⟨?_, ?_⟩
    · rw [hlog, refreshCallCount_append, hl1R, refreshCallCount_refreshReq]
    · rw [hlog, pathCallCount_append, pathCallCount_singleton_ne p _ hrne]
      omega
  · refine ⟨?_, ?_⟩
    · rw [hlog, refreshCallCount_append, refreshCallCount_append, hl1R,
          refreshCallCount_refreshReq, hR (some newTok)]
    · rw [hlog, pathCallCount_append, pathCallCount_append,
          pathCallCount_singleton_ne p _ hrne]
      have h3 := hP (some newTok)
      omega

/-! ## Claims -/

/-- Server answering 403 to the live fetch and a transport error to
everything else. -/
def envC1 : Env := fun r =>
  if r.path = API_HOME_ENDPOINT then .resp 403 .null else .netError "unreachable"

/-- A coordinator state with a stale but non-empty client token. -/
def stC1 : CoordState :=
  { clientToken := some "stale", entryAccessToken := "stale",
    entryRefreshToken := "rt", snapshot := none }

/-- C1 (counterexample): an HTTP 403 on the live fetch is NOT classified as
an auth failure and triggers NO refresh attempt — `get_device_data` only
treats 401 that way, a 403 falls through `raise_for_status` into
`MuliConnectionError`, so the poll cycle surfaces `UpdateFailed` with zero
refresh calls, contradicting the claim's "401 or 403 … never zero". -/
theorem C1_counterexample_403_is_connection_failure :
    get_device_data (some "stale") envC1 =
      (.error (.muliConnectionError "HTTP error: 403"), [.http (liveReq "stale")]) ∧
    (MuliDataUpdateCoordinator.async_update_data stC1 envC1).1 =
      .error (.updateFailed "Error communicating with API: HTTP error: 403") ∧
    refreshCallCount (MuliDataUpdateCoordinator.async_update_data stC1 envC1).2.2 = 0 :=
  ⟨rfl, rfl, rfl⟩

/-- C1 (amended): for every authenticated fetch or set operation
(`get_device_data`, `get_bike_details`, `set_monitored`,
`set_movement_alarm`), an HTTP response with status 401 is classified as an
auth failure and triggers exactly one refresh attempt and at most one retry
of the original operation — never zero refreshes and never two.  (A 403 is
instead classified as a connection failure and triggers no refresh.) -/
theorem C1_amended_401_single_refresh (st : CoordState) (env : Env) (t : String)
    (body : JValue) (b : Bool) (hst : st.clientToken = some t) (ht : t ≠ "") :
    (env (liveReq t) = .resp 401 body →
      refreshCallCount (MuliDataUpdateCoordinator.async_update_data st env).2.2 = 1 ∧
      pathCallCount API_HOME_ENDPOINT
        (MuliDataUpdateCoordinator.async_update_data st env).2.2 ≤ 2) ∧
    (env (bikeDetailsReq t) = .resp 401 body →
      refreshCallCount (MuliBikeDetailsCoordinator.async_update_data st env).2.2 = 1 ∧
      pathCallCount API_BIKE_ENDPOINT
        (MuliBikeDetailsCoordinator.async_update_data st env).2.2 ≤ 2) ∧
    (env (monitoredReq t b) = .resp 401 body →
      refreshCallCount (MuliDataUpdateCoordinator.async_set_monitored st env b).2.2 = 1 ∧
      pathCallCount API_MONITORED_ENDPOINT
        (MuliDataUpdateCoordinator.async_set_monitored st env b).2.2 ≤ 2) ∧
    (env (settingsReq t b) = .resp 401 body →
      refreshCallCount (MuliDataUpdateCoordinator.async_set_movement_alarm st env b).2.2 = 1 ∧
      pathCallCount API_SETTINGS_ENDPOINT
        (MuliDataUpdateCoordinator.async_set_movement_alarm st env b).2.2 ≤ 2) := by
  refine ⟨fun h => ?_, fun h => ?_, fun h => ?_, fun h => ?_⟩
  · have h1 : get_device_data st.clientToken env =
        (.error (.muliAuthenticationError "Access token expired or invalid"),
         [.http (liveReq t)]) := by
      rw [hst]
      exact get_device_data_401 t ht env body h
    exact authRetryFlow_counts get_device_data API_HOME_ENDPOINT st env _ _ h1
      (fun tok => refreshCallCount_get_device_data tok env)
      (fun tok => homeCallCount_get_device_data tok env) (by decide)
  · have h1 : get_bike_details st.clientToken env =
        (.error (.muliAuthenticationError "Access token expired or invalid"),
         [.http (bikeDetailsReq t)]) := by
      rw [hst]
      exact get_bike_details_401 t ht env body h
    exact authRetryFlow_counts get_bike_details API_BIKE_ENDPOINT st env _ _ h1
      (fun tok => refreshCallCount_get_bike_details tok env)
      (fun tok => bikeCallCount_get_bike_details tok env) (by decide)
  · have h1 : set_monitored st.clientToken b env =
        (.error (.muliAuthenticationError "Access token expired or invalid"),
         [.http (monitoredReq t b)]) := by
      rw [hst]
      exact set_monitored_401 t ht b env body h
    have hc := authRetryFlow_counts (fun tok e => set_monitored tok b e)
      API_MONITORED_ENDPOINT st env _ _ h1
      (fun tok => refreshCallCount_set_monitored tok b env)
      (fun tok => monitoredCallCount_set_monitored tok b env) (by decide)
    constructor
    · simp only [refreshCallCount, async_set_monitored_pathCallCount]
      exact hc.1
    · rw [async_set_monitored_pathCallCount]
      exact hc.2
  · have h1 : set_movement_alarm st.clientToken b env =
        (.error (.muliAuthenticationError "Access token expired or invalid"),
         [.http (settingsReq t b)]) := by
      rw [hst]
      exact set_movement_alarm_401 t ht b env body h
    have hc := authRetryFlow_counts (fun tok e => set_movement_alarm tok b e)
      API_SETTINGS_ENDPOINT st env _ _ h1
      (fun tok => refreshCallCount_set_movement_alarm tok b env)
      (fun tok => settingsCallCount_set_movement_alarm tok b env) (by decide)
    constructor
    · simp only [refreshCallCount, async_set_movement_alarm_pathCallCount]
      exact hc.1
    · rw [async_set_movement_alarm_pathCallCount]
      exact hc.2

/-- Server answering 401 to any request bearing the stale token "old",
success to everything else (the refresh included). -/
def envStale : Env := fun r =>
  if r.auth = some "old" then .resp 401 .null
  else if r.path = API_REFRESH_ENDPOINT then .resp 200 (.obj [("jwtToken", .str "new")])
  else .resp 200 (.obj [("vehicleData", .null)])

/-- A coordinator state holding the stale token "old". -/
def stOld : CoordState :=
  { clientToken := some "old", entryAccessToken := "old",
    entryRefreshToken := "rt", snapshot := none }

theorem C1_amended_401_single_refresh_witness :
    refreshCallCount (MuliDataUpdateCoordinator.async_update_data stOld envStale).2.2 = 1 ∧
    pathCallCount API_HOME_ENDPOINT
      (MuliDataUpdateCoordinator.async_update_data stOld envStale).2.2 ≤ 2 :=
  (C1_amended_401_single_refresh stOld envStale "old" .null true rfl (by decide)).1 rfl

theorem get_device_data_log_some (t : String) (ht : t ≠ "") (env : Env) :
    (get_device_data (some t) env).2 = [.http (liveReq t)] := by
  simp only [get_device_data, if_neg ht]
  repeat' split
  all_goals rfl

theorem refresh_access_token_ok (rt newTok : String) (env : Env)
    (hr : env (refreshReq rt) = .resp 200 (.obj [("jwtToken", .str newTok)])) :
    refresh_access_token rt env = (.ok newTok, [.http (refreshReq rt)]) := by
  simp [refresh_access_token, hr, JValue.getStr, JValue.lookup]

/-- C2: in a poll cycle whose first live fetch gets a 401 and whose refresh
succeeds with a (non-empty) new token, the client's access token and the
persisted config-entry access token afterward both equal the new token, and
the retried fetch is issued bearing the new token, not the stale one. -/
theorem C2_refresh_success_new_token (st : CoordState) (env : Env) (t newTok : String)
    (body : JValue) (hst : st.clientToken = some t) (ht : t ≠ "")
    (h401 : env (liveReq t) = .resp 401 body)
    (hr : env (refreshReq st.entryRefreshToken) =
      .resp 200 (.obj [("jwtToken", .str newTok)]))
    (hnew : newTok ≠ "") :
    (MuliDataUpdateCoordinator.async_update_data st env).2.1.clientToken = some newTok ∧
    (MuliDataUpdateCoordinator.async_update_data st env).2.1.entryAccessToken = newTok ∧
    (MuliDataUpdateCoordinator.async_update_data st env).2.2 =
      [.http (liveReq t), .http (refreshReq st.entryRefreshToken),
       .http (liveReq newTok)] := by
  simp only [MuliDataUpdateCoordinator.async_update_data]
  have h1 : get_device_data st.clientToken env =
      (.error (.muliAuthenticationError "Access token expired or invalid"),
       [.http (liveReq t)]) := by
    rw [hst]
    exact get_device_data_401 t ht env body h401
  have hrok := refresh_access_token_ok st.entryRefreshToken newTok env hr
  rcases authRetryFlow_auth_branch get_device_data st env _ _ h1 with
    ⟨⟨e2, hbad⟩, _, _⟩ | ⟨nt, hok, hlog, hstate⟩
  · rw [hrok] at hbad
    exact absurd hbad (by simp)
  · rw [hrok] at hok
    have hnt : nt = newTok := by
      simpa using hok.symm
    rw [hnt] at hlog hstate
    refine ⟨?_, ?_, ?_⟩
    · rw [hstate]
    · rw [hstate]
    · rw [hlog, get_device_data_log_some newTok hnew env]
      rfl

theorem C2_witness :
    (MuliDataUpdateCoordinator.async_update_data stOld envStale).2.1.clientToken =
      some "new" ∧
    (MuliDataUpdateCoordinator.async_update_data stOld envStale).2.1.entryAccessToken =
      "new" ∧
    (MuliDataUpdateCoordinator.async_update_data stOld envStale).2.2 =
      [.http (liveReq "old"), .http (refreshReq "rt"), .http (liveReq "new")] :=
  C2_refresh_success_new_token stOld envStale "old" "new" .null rfl (by decide) rfl rfl
    (by decide)

theorem refresh_access_token_auth (rt : String) (env : Env) (s2 : Nat) (body2 : JValue)
    (hs : s2 = 401 ∨ s2 = 403) (hr : env (refreshReq rt) = .resp s2 body2) :
    refresh_access_token rt env =
      (.error (.muliAuthenticationError "Refresh token expired or invalid"),
       [.http (refreshReq rt)]) := by
  rcases hs with h | h <;> subst h <;> simp [refresh_access_token, hr]

/-- C3: when the live fetch gets a 401 and the refresh call itself is
rejected with 401 or 403, the cycle raises `ConfigEntryAuthFailed`, makes
exactly one refresh call and one fetch call, leaves the whole coordinator
state (tokens included) untouched, and the published snapshot unchanged. -/
theorem C3_refresh_auth_failure_fatal (st : CoordState) (env : Env) (t : String)
    (body body2 : JValue) (s2 : Nat) (hst : st.clientToken = some t) (ht : t ≠ "")
    (h401 : env (liveReq t) = .resp 401 body)
    (hs : s2 = 401 ∨ s2 = 403)
    (hr : env (refreshReq st.entryRefreshToken) = .resp s2 body2) :
    MuliDataUpdateCoordinator.async_update_data st env =
      (.error (.configEntryAuthFailed "Refresh token expired, please re-authenticate"),
       st, [.http (liveReq t), .http (refreshReq st.entryRefreshToken)]) ∧
    refreshCallCount (MuliDataUpdateCoordinator.async_update_data st env).2.2 = 1 ∧
    pathCallCount API_HOME_ENDPOINT
      (MuliDataUpdateCoordinator.async_update_data st env).2.2 = 1 ∧
    (runLiveUpdateCycle st env).2.1.snapshot = st.snapshot := by
  have h1 : get_device_data st.clientToken env =
      (.error (.muliAuthenticationError "Access token expired or invalid"),
       [.http (liveReq t)]) := by
    rw [hst]
    exact get_device_data_401 t ht env body h401
  have hra := refresh_access_token_auth st.entryRefreshToken env s2 body2 hs hr
  have hflow : MuliDataUpdateCoordinator.async_update_data st env =
      (.error (.configEntryAuthFailed "Refresh token expired, please re-authenticate"),
       st, [.http (liveReq t), .http (refreshReq st.entryRefreshToken)]) := by
    simp [MuliDataUpdateCoordinator.async_update_data, authRetryFlow, h1, hra]
  refine ⟨hflow, ?_, ?_, ?_⟩
  · rw [hflow]
    rfl
  · rw [hflow]
    rfl
  · simp [runLiveUpdateCycle, hflow]

/-- Server rejecting both the stale live fetch and the refresh with 401. -/
def envDeadRefresh : Env := fun r =>
  if r.path = API_REFRESH_ENDPOINT then .resp 401 .null
  else if r.auth = some "old" then .resp 401 .null
  else .netError "unreachable"

theorem C3_witness :
    MuliDataUpdateCoordinator.async_update_data stOld envDeadRefresh =
      (.error (.configEntryAuthFailed "Refresh token expired, please re-authenticate"),
       stOld, [.http (liveReq "old"), .http (refreshReq "rt")]) ∧
    refreshCallCount
      (MuliDataUpdateCoordinator.async_update_data stOld envDeadRefresh).2.2 = 1 ∧
    pathCallCount API_HOME_ENDPOINT
      (MuliDataUpdateCoordinator.async_update_data stOld envDeadRefresh).2.2 = 1 ∧
    (runLiveUpdateCycle stOld envDeadRefresh).2.1.snapshot = stOld.snapshot :=
  C3_refresh_auth_failure_fatal stOld envDeadRefresh "old" .null .null 401 rfl (by decide)
    rfl (Or.inl rfl) rfl

/-- C4: a connection failure (non-auth HTTP error or transport error) on
any of the four authenticated operations leaves the whole coordinator state
— both stored credentials and the snapshot — untouched, performs no refresh
HTTP call, and surfaces as the retryable `UpdateFailed`. -/
theorem C4_connection_failure_frame (st : CoordState) (env : Env) (b : Bool) (m : String)
    (l : List Event) :
    (get_device_data st.clientToken env = (.error (.muliConnectionError m), l) →
      MuliDataUpdateCoordinator.async_update_data st env =
        (.error (.updateFailed ("Error communicating with API: " ++ m)), st, l) ∧
      refreshCallCount l = 0 ∧
      (runLiveUpdateCycle st env).2.1 = st) ∧
    (get_bike_details st.clientToken env = (.error (.muliConnectionError m), l) →
      MuliBikeDetailsCoordinator.async_update_data st env =
        (.error (.updateFailed ("Error communicating with API: " ++ m)), st, l) ∧
      refreshCallCount l = 0) ∧
    (set_monitored st.clientToken b env = (.error (.muliConnectionError m), l) →
      MuliDataUpdateCoordinator.async_set_monitored st env b =
        (.error (.updateFailed ("Error communicating with API: " ++ m)), st, l) ∧
      refreshCallCount l = 0) ∧
    (set_movement_alarm st.clientToken b env = (.error (.muliConnectionError m), l) →
      MuliDataUpdateCoordinator.async_set_movement_alarm st env b =
        (.error (.updateFailed ("Error communicating with API: " ++ m)), st, l) ∧
      refreshCallCount l = 0) := by
  refine ⟨fun h => ?_, fun h => ?_, fun h => ?_, fun h => ?_⟩
  · have hflow : MuliDataUpdateCoordinator.async_update_data st env =
        (.error (.updateFailed ("Error communicating with API: " ++ m)), st, l) := by
      simp [MuliDataUpdateCoordinator.async_update_data, authRetryFlow, h]
    have hc := refreshCallCount_get_device_data st.clientToken env
    rw [h] at hc
    exact ⟨hflow, hc, by simp [runLiveUpdateCycle, hflow]⟩
  · have hflow : MuliBikeDetailsCoordinator.async_update_data st env =
        (.error (.updateFailed ("Error communicating with API: " ++ m)), st, l) := by
      simp [MuliBikeDetailsCoordinator.async_update_data, authRetryFlow, h]
    have hc := refreshCallCount_get_bike_details st.clientToken env
    rw [h] at hc
    exact ⟨hflow, hc⟩
  · have hflow : MuliDataUpdateCoordinator.async_set_monitored st env b =
        (.error (.updateFailed ("Error communicating with API: " ++ m)), st, l) := by
      simp [MuliDataUpdateCoordinator.async_set_monitored, authRetryFlow, h]
    have hc := refreshCallCount_set_monitored st.clientToken b env
    rw [h] at hc
    exact ⟨hflow, hc⟩
  · have hflow : MuliDataUpdateCoordinator.async_set_movement_alarm st env b =
        (.error (.updateFailed ("Error communicating with API: " ++ m)), st, l) := by
      simp [MuliDataUpdateCoordinator.async_set_movement_alarm, authRetryFlow, h]
    have hc := refreshCallCount_set_movement_alarm st.clientToken b env
    rw [h] at hc
    exact ⟨hflow, hc⟩

/-- Server answering 500 to every request. -/
def env500 : Env := fun _ => .resp 500 .null

theorem C4_witness :
    MuliDataUpdateCoordinator.async_update_data stOld env500 =
      (.error (.updateFailed "Error communicating with API: HTTP error: 500"), stOld,
       [.http (liveReq "old")]) ∧
    MuliBikeDetailsCoordinator.async_update_data stOld env500 =
      (.error (.updateFailed "Error communicating with API: HTTP error: 500"), stOld,
       [.http (bikeDetailsReq "old")]) ∧
    MuliDataUpdateCoordinator.async_set_monitored stOld env500 true =
      (.error (.updateFailed "Error communicating with API: HTTP error: 500"), stOld,
       [.http (monitoredReq "old" true)]) ∧
    MuliDataUpdateCoordinator.async_set_movement_alarm stOld env500 true =
      (.error (.updateFailed "Error communicating with API: HTTP error: 500"), stOld,
       [.http (settingsReq "old" true)]) :=
  ⟨((C4_connection_failure_frame stOld env500 true "HTTP error: 500"
      [.http (liveReq "old")]).1 rfl).1,
   ((C4_connection_failure_frame stOld env500 true "HTTP error: 500"
      [.http (bikeDetailsReq "old")]).2.1 rfl).1,
   ((C4_connection_failure_frame stOld env500 true "HTTP error: 500"
      [.http (monitoredReq "old" true)]).2.2.1 rfl).1,
   ((C4_connection_failure_frame stOld env500 true "HTTP error: 500"
      [.http (settingsReq "old" true)]).2.2.2 rfl).1⟩

/-- C5: with an absent or empty client access token, every authenticated
operation raises the auth failure immediately and performs no HTTP exchange
(empty request log); the poll cycle then takes the very same refresh path
as after a server-side 401 — its first HTTP call is the refresh request. -/
theorem C5_missing_token_immediate_auth (st : CoordState) (env : Env) (b : Bool)
    (hst : st.clientToken = none ∨ st.clientToken = some "") :
    get_device_data st.clientToken env =
      (.error (.muliAuthenticationError "No access token available"), []) ∧
    get_bike_details st.clientToken env =
      (.error (.muliAuthenticationError "No access token available"), []) ∧
    set_monitored st.clientToken b env =
      (.error (.muliAuthenticationError "No access token available"), []) ∧
    set_movement_alarm st.clientToken b env =
      (.error (.muliAuthenticationError "No access token available"), []) ∧
    (MuliDataUpdateCoordinator.async_update_data st env).2.2.head? =
      some (.http (refreshReq st.entryRefreshToken)) := by
  have hg : get_device_data st.clientToken env =
      (.error (.muliAuthenticationError "No access token available"), []) := by
    rcases hst with h | h <;> rw [h] <;> simp [get_device_data]
  have hb : get_bike_details st.clientToken env =
      (.error (.muliAuthenticationError "No access token available"), []) := by
    rcases hst with h | h <;> rw [h] <;> simp [get_bike_details]
  have hm : set_monitored st.clientToken b env =
      (.error (.muliAuthenticationError "No access token available"), []) := by
    rcases hst with h | h <;> rw [h] <;> simp [set_monitored]
  have ha : set_movement_alarm st.clientToken b env =
      (.error (.muliAuthenticationError "No access token available"), []) := by
    rcases hst with h | h <;> rw [h] <;> simp [set_movement_alarm]
  refine ⟨hg, hb, hm, ha, ?_⟩
  rcases authRetryFlow_auth_branch get_device_data st env _ _ hg with
    ⟨_, hlog, _⟩ | ⟨nt, _, hlog, _⟩
  · rw [show MuliDataUpdateCoordinator.async_update_data st env =
        authRetryFlow get_device_data st env from rfl, hlog]
    rfl
  · rw [show MuliDataUpdateCoordinator.async_update_data st env =
        authRetryFlow get_device_data st env from rfl, hlog]
    rfl

/-- A coordinator state with no client access token at all. -/
def stNoTok : CoordState :=
  { clientToken := none, entryAccessToken := "old",
    entryRefreshToken := "rt", snapshot := none }

theorem C5_witness :
    get_device_data stNoTok.clientToken envStale =
      (.error (.muliAuthenticationError "No access token available"), []) ∧
    get_bike_details stNoTok.clientToken envStale =
      (.error (.muliAuthenticationError "No access token available"), []) ∧
    set_monitored stNoTok.clientToken true envStale =
      (.error (.muliAuthenticationError "No access token available"), []) ∧
    set_movement_alarm stNoTok.clientToken true envStale =
      (.error (.muliAuthenticationError "No access token available"), []) ∧
    (MuliDataUpdateCoordinator.async_update_data stNoTok envStale).2.2.head? =
      some (.http (refreshReq "rt")) :=
  C5_missing_token_immediate_auth stNoTok envStale true (Or.inl rfl)

/-- C6: a command never touches the published snapshot, and a successfully
executed command issues exactly one forced re-fetch of the live snapshot —
as the last event, after the HTTP calls — and none of the details
snapshot. -/
theorem C6_command_success_single_refetch (st : CoordState) (env : Env) (b : Bool) :
    ((MuliDataUpdateCoordinator.async_set_monitored st env b).2.1.snapshot =
        st.snapshot ∧
     (MuliDataUpdateCoordinator.async_set_movement_alarm st env b).2.1.snapshot =
        st.snapshot) ∧
    ((MuliDataUpdateCoordinator.async_set_monitored st env b).1 = .ok () →
      ∃ l, (MuliDataUpdateCoordinator.async_set_monitored st env b).2.2 =
          l ++ [.requestRefresh .live] ∧
        forcedRefreshCount .live
          (MuliDataUpdateCoordinator.async_set_monitored st env b).2.2 = 1 ∧
        forcedRefreshCount .details
          (MuliDataUpdateCoordinator.async_set_monitored st env b).2.2 = 0) ∧
    ((MuliDataUpdateCoordinator.async_set_movement_alarm st env b).1 = .ok () →
      ∃ l, (MuliDataUpdateCoordinator.async_set_movement_alarm st env b).2.2 =
          l ++ [.requestRefresh .live] ∧
        forcedRefreshCount .live
          (MuliDataUpdateCoordinator.async_set_movement_alarm st env b).2.2 = 1 ∧
        forcedRefreshCount .details
          (MuliDataUpdateCoordinator.async_set_movement_alarm st env b).2.2 = 0) := by
  refine ⟨⟨?_, ?_⟩, fun hok => ?_, fun hok => ?_⟩
  · rcases h : authRetryFlow (fun tok e => set_monitored tok b e) st env with ⟨r, st2, log⟩
    have hsnap := authRetryFlow_snapshot (fun tok e => set_monitored tok b e) st env
    rw [h] at hsnap
    rcases r with e | a <;>
      simpa [MuliDataUpdateCoordinator.async_set_monitored, h] using hsnap
  · rcases h : authRetryFlow (fun tok e => set_movement_alarm tok b e) st env with
      ⟨r, st2, log⟩
    have hsnap := authRetryFlow_snapshot (fun tok e => set_movement_alarm tok b e) st env
    rw [h] at hsnap
    rcases r with e | a <;>
      simpa [MuliDataUpdateCoordinator.async_set_movement_alarm, h] using hsnap
  · rcases h : authRetryFlow (fun tok e => set_monitored tok b e) st env with ⟨r, st2, log⟩
    have hfl := authRetryFlow_forced (fun tok e => set_monitored tok b e) st env .live
      (fun tok => forcedRefreshCount_set_monitored .live tok b env)
    have hfd := authRetryFlow_forced (fun tok e => set_monitored tok b e) st env .details
      (fun tok => forcedRefreshCount_set_monitored .details tok b env)
    rw [h] at hfl hfd
    rcases r with e | a
    · rw [show (MuliDataUpdateCoordinator.async_set_monitored st env b).1 =
          (Except.error e : Except CoordException Unit) from by
            simp [MuliDataUpdateCoordinator.async_set_monitored, h]] at hok
      exact absurd hok (by simp)
    · have hlog : (MuliDataUpdateCoordinator.async_set_monitored st env b).2.2 =
          log ++ [.requestRefresh .live] := by
        simp [MuliDataUpdateCoordinator.async_set_monitored, h]
      refine ⟨log, hlog, ?_, ?_⟩
      · rw [hlog, forcedRefreshCount_append, hfl]
        rfl
      · rw [hlog, forcedRefreshCount_append, hfd]
        rfl
  · rcases h : authRetryFlow (fun tok e => set_movement_alarm tok b e) st env with
      ⟨r, st2, log⟩
    have hfl := authRetryFlow_forced (fun tok e => set_movement_alarm tok b e) st env .live
      (fun tok => forcedRefreshCount_set_movement_alarm .live tok b env)
    have hfd := authRetryFlow_forced (fun tok e => set_movement_alarm tok b e) st env
      .details (fun tok => forcedRefreshCount_set_movement_alarm .details tok b env)
    rw [h] at hfl hfd
    rcases r with e | a
    · rw [show (MuliDataUpdateCoordinator.async_set_movement_alarm st env b).1 =
          (Except.error e : Except CoordException Unit) from by
            simp [MuliDataUpdateCoordinator.async_set_movement_alarm, h]] at hok
      exact absurd hok (by simp)
    · have hlog : (MuliDataUpdateCoordinator.async_set_movement_alarm st env b).2.2 =
          log ++ [.requestRefresh .live] := by
        simp [MuliDataUpdateCoordinator.async_set_movement_alarm, h]
      refine ⟨log, hlog, ?_, ?_⟩
      · rw [hlog, forcedRefreshCount_append, hfl]
        rfl
      · rw [hlog, forcedRefreshCount_append, hfd]
        rfl

/-- Server accepting every request. -/
def envOK : Env := fun _ => .resp 200 (.obj [("vehicleData", .null)])

theorem C6_witness :
    (MuliDataUpdateCoordinator.async_set_monitored stOld envOK true).2.1.snapshot =
      stOld.snapshot ∧
    (∃ l, (MuliDataUpdateCoordinator.async_set_monitored stOld envOK true).2.2 =
        l ++ [.requestRefresh .live] ∧
      forcedRefreshCount .live
        (MuliDataUpdateCoordinator.async_set_monitored stOld envOK true).2.2 = 1 ∧
      forcedRefreshCount .details
        (MuliDataUpdateCoordinator.async_set_monitored stOld envOK true).2.2 = 0) ∧
    (∃ l, (MuliDataUpdateCoordinator.async_set_movement_alarm stOld envOK true).2.2 =
        l ++ [.requestRefresh .live] ∧
      forcedRefreshCount .live
        (MuliDataUpdateCoordinator.async_set_movement_alarm stOld envOK true).2.2 = 1 ∧
      forcedRefreshCount .details
        (MuliDataUpdateCoordinator.async_set_movement_alarm stOld envOK true).2.2 = 0) :=
  ⟨(C6_command_success_single_refetch stOld envOK true).1.1,
   (C6_command_success_single_refetch stOld envOK true).2.1 rfl,
   (C6_command_success_single_refetch stOld envOK true).2.2 rfl⟩

/-- Specification-side reading of the settings request body (from the
spec's "nested settings object with only movementAlarm populated, siblings
null"): security.movementAlarm carries the desired boolean and the
display, movementLockControl, autoLock and notifications fields are all
null. -/
def onlyMovementAlarmPopulated (b : Bool) (v : JValue) : Prop :=
  v.fieldNames = ["display", "security", "notifications"] ∧
  v.lookup "display" = some .null ∧
  v.lookup "notifications" = some .null ∧
  (∃ sec, v.lookup "security" = some sec ∧
    sec.fieldNames = ["movementLockControl", "movementAlarm", "autoLock"] ∧
    sec.lookup "movementLockControl" = some .null ∧
    sec.lookup "movementAlarm" = some (.bool b) ∧
    sec.lookup "autoLock" = some .null)

/-- C7: for every boolean, `set_movement_alarm` with a (non-empty) token
issues exactly one PUT against the settings endpoint, bearing the token,
whose body is the nested settings object in which only movementAlarm is
populated with the desired value and every sibling field is null. -/
theorem C7_set_movement_alarm_payload (t : String) (ht : t ≠ "") (b : Bool) (env : Env) :
    (set_movement_alarm (some t) b env).2 = [.http (settingsReq t b)] ∧
    (settingsReq t b).method = .put ∧
    (settingsReq t b).path = API_SETTINGS_ENDPOINT ∧
    (settingsReq t b).auth = some t ∧
    (settingsReq t b).body = some (settingsPayload b) ∧
    onlyMovementAlarmPopulated b (settingsPayload b) := by
  refine ⟨?_, rfl, rfl, rfl, rfl, ?_⟩
  · simp only [set_movement_alarm, if_neg ht]
    repeat' split
    all_goals rfl
  · exact ⟨rfl, rfl, rfl, ⟨_, rfl, rfl, rfl, rfl, rfl⟩⟩

theorem C7_witness :
    (set_movement_alarm (some "old") true envOK).2 = [.http (settingsReq "old" true)] ∧
    (settingsReq "old" true).method = .put ∧
    (settingsReq "old" true).path = API_SETTINGS_ENDPOINT ∧
    (settingsReq "old" true).auth = some "old" ∧
    (settingsReq "old" true).body = some (settingsPayload true) ∧
    onlyMovementAlarmPopulated true (settingsPayload true) :=
  C7_set_movement_alarm_payload "old" (by decide) true envOK

/-- C8 (counterexample): the login request body does not consist of the
fields email, password and application alone — api.py also sends a fourth
field, successUrl. -/
theorem C8_counterexample_login_body_extra_field :
    (loginPayload "user@example.com" "pw").fieldNames =
      ["email", "password", "application", "successUrl"] ∧
    "successUrl" ∉ (["email", "password", "application"] : List String) :=
  ⟨rfl, by decide⟩

/-- C8 (amended): for every email and password, login sends a single POST
to the login endpoint without bearer auth whose body consists of the fields
email, password, application and successUrl (the latter always the empty
string), and on a success status returns the credential pair taken from the
response's jwtToken and jwtRefreshToken fields. -/
theorem C8_amended_login_request_shape (email password : String) (env : Env)
    (s : Nat) (body : JValue) (a r : String)
    (h : env (loginReq email password) = .resp s body) (hs : s < 400)
    (ha : body.getStr "jwtToken" = some a)
    (hr : body.getStr "jwtRefreshToken" = some r) :
    (login email password env).2 = [.http (loginReq email password)] ∧
    (loginReq email password).method = .post ∧
    (loginReq email password).path = API_LOGIN_ENDPOINT ∧
    (loginReq email password).auth = none ∧
    (loginPayload email password).fieldNames =
      ["email", "password", "application", "successUrl"] ∧
    (loginPayload email password).lookup "email" = some (.str email) ∧
    (loginPayload email password).lookup "password" = some (.str password) ∧
    (loginPayload email password).lookup "application" =
      some (.str APPLICATION_NAME) ∧
    (loginPayload email password).lookup "successUrl" = some (.str "") ∧
    (login email password env).1 = .ok ⟨a, r⟩ := by
  have h1 : ¬(s = 401 ∨ s = 403) := by omega
  have h2 : ¬(400 ≤ s) := by omega
  refine ⟨?_, rfl, rfl, rfl, rfl, rfl, rfl, rfl, rfl, ?_⟩ <;>
    simp [login, h, h1, h2, ha, hr]

/-- Server accepting the login with a fixed token pair. -/
def envLogin : Env := fun r =>
  if r.path = API_LOGIN_ENDPOINT then
    .resp 200 (.obj [("jwtToken", .str "at"), ("jwtRefreshToken", .str "rt")])
  else .netError "unreachable"

theorem C8_amended_witness :
    (login "user@example.com" "pw" envLogin).2 =
      [.http (loginReq "user@example.com" "pw")] ∧
    (loginReq "user@example.com" "pw").method = .post ∧
    (loginReq "user@example.com" "pw").path = API_LOGIN_ENDPOINT ∧
    (loginReq "user@example.com" "pw").auth = none ∧
    (loginPayload "user@example.com" "pw").fieldNames =
      ["email", "password", "application", "successUrl"] ∧
    (loginPayload "user@example.com" "pw").lookup "email" =
      some (.str "user@example.com") ∧
    (loginPayload "user@example.com" "pw").lookup "password" = some (.str "pw") ∧
    (loginPayload "user@example.com" "pw").lookup "application" =
      some (.str APPLICATION_NAME) ∧
    (loginPayload "user@example.com" "pw").lookup "successUrl" = some (.str "") ∧
    (login "user@example.com" "pw" envLogin).1 = .ok ⟨"at", "rt"⟩ :=
  C8_amended_login_request_shape "user@example.com" "pw" envLogin 200
    (.obj [("jwtToken", .str "at"), ("jwtRefreshToken", .str "rt")]) "at" "rt" rfl
    (by omega) rfl rfl

/-- C9: when the refresh succeeds but the retried live fetch is rejected
with a 401 again, the cycle raises `ConfigEntryAuthFailed` — the second
auth failure is classified as a dead credential, not as a retryable
failure, because the retry runs inside the same exception handler as the
refresh call — and still only one refresh HTTP call is made. -/
theorem C9_second_auth_failure_fatal (st : CoordState) (env : Env) (t newTok : String)
    (body body3 : JValue) (hst : st.clientToken = some t) (ht : t ≠ "")
    (h401 : env (liveReq t) = .resp 401 body)
    (hr : env (refreshReq st.entryRefreshToken) =
      .resp 200 (.obj [("jwtToken", .str newTok)]))
    (hnew : newTok ≠ "")
    (h401b : env (liveReq newTok) = .resp 401 body3) :
    (MuliDataUpdateCoordinator.async_update_data st env).1 =
      .error (.configEntryAuthFailed "Refresh token expired, please re-authenticate") ∧
    refreshCallCount (MuliDataUpdateCoordinator.async_update_data st env).2.2 = 1 := by
  have h1 : get_device_data st.clientToken env =
      (.error (.muliAuthenticationError "Access token expired or invalid"),
       [.http (liveReq t)]) := by
    rw [hst]
    exact get_device_data_401 t ht env body h401
  have hrok := refresh_access_token_ok st.entryRefreshToken newTok env hr
  have h3 := get_device_data_401 newTok hnew env body3 h401b
  have hflow : MuliDataUpdateCoordinator.async_update_data st env =
      (.error (.configEntryAuthFailed "Refresh token expired, please re-authenticate"),
       { st with clientToken := some newTok, entryAccessToken := newTok },
       [.http (liveReq t), .http (refreshReq st.entryRefreshToken),
        .http (liveReq newTok)]) := by
    simp [MuliDataUpdateCoordinator.async_update_data, authRetryFlow, h1, hrok, h3]
  rw [hflow]
  exact ⟨rfl, rfl⟩

/-- Server rejecting every authenticated fetch with 401 but still serving
the refresh with a new token. -/
def envRefreshOnly : Env := fun r =>
  if r.path = API_REFRESH_ENDPOINT then .resp 200 (.obj [("jwtToken", .str "new")])
  else .resp 401 .null

theorem C9_witness :
    (MuliDataUpdateCoordinator.async_update_data stOld envRefreshOnly).1 =
      .error (.configEntryAuthFailed "Refresh token expired, please re-authenticate") ∧
    refreshCallCount
      (MuliDataUpdateCoordinator.async_update_data stOld envRefreshOnly).2.2 = 1 :=
  C9_second_auth_failure_fatal stOld envRefreshOnly "old" "new" .null .null rfl
    (by decide) rfl rfl (by decide) rfl

/-- C10: when the refresh succeeds but the retried live fetch then hits a
connection failure, the cycle fails with the retryable `UpdateFailed` (the
code labels it with the refresh-failure message), yet the freshly refreshed
access token stays persisted in both the client and the config entry — the
credential mutation is committed before the retry and never rolled back. -/
theorem C10_retry_connection_failure_keeps_token (st : CoordState) (env : Env)
    (t newTok m : String) (body : JValue) (l3 : List Event)
    (hst : st.clientToken = some t) (ht : t ≠ "")
    (h401 : env (liveReq t) = .resp 401 body)
    (hr : env (refreshReq st.entryRefreshToken) =
      .resp 200 (.obj [("jwtToken", .str newTok)]))
    (hconn : get_device_data (some newTok) env = (.error (.muliConnectionError m), l3)) :
    (MuliDataUpdateCoordinator.async_update_data st env).1 =
      .error (.updateFailed ("Failed to refresh token: " ++ m)) ∧
    (MuliDataUpdateCoordinator.async_update_data st env).2.1.clientToken =
      some newTok ∧
    (MuliDataUpdateCoordinator.async_update_data st env).2.1.entryAccessToken =
      newTok := by
  have h1 : get_device_data st.clientToken env =
      (.error (.muliAuthenticationError "Access token expired or invalid"),
       [.http (liveReq t)]) := by
    rw [hst]
    exact get_device_data_401 t ht env body h401
  have hrok := refresh_access_token_ok st.entryRefreshToken newTok env hr
  have hflow : MuliDataUpdateCoordinator.async_update_data st env =
      (.error (.updateFailed ("Failed to refresh token: " ++ m)),
       { st with clientToken := some newTok, entryAccessToken := newTok },
       [.http (liveReq t), .http (refreshReq st.entryRefreshToken)] ++ l3) := by
    simp [MuliDataUpdateCoordinator.async_update_data, authRetryFlow, h1, hrok, hconn]
  rw [hflow]
  exact ⟨rfl, rfl, rfl⟩

/-- Server rejecting the stale token with 401, refreshing to "new", then
answering 500 to the fetch that bears the new token. -/
def envC10 : Env := fun r =>
  if r.path = API_REFRESH_ENDPOINT then .resp 200 (.obj [("jwtToken", .str "new")])
  else if r.auth = some "old" then .resp 401 .null
  else .resp 500 .null

theorem C10_witness :
    (MuliDataUpdateCoordinator.async_update_data stOld envC10).1 =
      .error (.updateFailed "Failed to refresh token: HTTP error: 500") ∧
    (MuliDataUpdateCoordinator.async_update_data stOld envC10).2.1.clientToken =
      some "new" ∧
    (MuliDataUpdateCoordinator.async_update_data stOld envC10).2.1.entryAccessToken =
      "new" :=
  C10_retry_connection_failure_keeps_token stOld envC10 "old" "new" "HTTP error: 500"
    .null [.http (liveReq "new")] rfl (by decide) rfl rfl rfl
